import Mathlib

/-!
Verification of the j5 hardware-abstraction core: the Arduino hardware
backend (`j5/backends/hardware/j5/arduino.py`) and the `BoardGroup`
collection it plugs into.  Python methods become Lean functions; the
mutable backend object becomes explicit state passing; raised exceptions
become `Except` results paired with the state at the moment of the raise.
-/

namespace J5

/-- Modelled from the spec: the Pin State mode enum
(`j5.components.GPIOPinMode` is outside this repository slice); the spec's
data model lists exactly DIGITAL_INPUT, DIGITAL_INPUT_PULLUP,
DIGITAL_OUTPUT and ANALOGUE_INPUT. -/
inductive GPIOPinMode where
  | DIGITAL_INPUT
  | DIGITAL_INPUT_PULLUP
  | DIGITAL_OUTPUT
  | ANALOGUE_INPUT
deriving DecidableEq, Repr

def GPIOPinMode.pyName : GPIOPinMode → String
  | .DIGITAL_INPUT => "GPIOPinMode.DIGITAL_INPUT"
  | .DIGITAL_INPUT_PULLUP => "GPIOPinMode.DIGITAL_INPUT_PULLUP"
  | .DIGITAL_OUTPUT => "GPIOPinMode.DIGITAL_OUTPUT"
  | .ANALOGUE_INPUT => "GPIOPinMode.ANALOGUE_INPUT"

/-- `DigitalPinData`: data about a digital pin (mode and last written
state), from `arduino.py`. -/
structure DigitalPinData where
  mode : GPIOPinMode
  state : Bool
deriving DecidableEq, Repr

/-- The abstract error kinds of the spec's error taxonomy. -/
inductive ErrKind where
  | nsbh   -- NotSupportedByHardware
  | value  -- Python ValueError: the spec's InvalidState / InvalidArgument
  | key    -- Python KeyError: the spec's NotFound
  | typ    -- Python TypeError
  | comm   -- CommunicationError
deriving DecidableEq, Repr

/-- The Python exceptions raised by the code under study. -/
inductive PyError where
  | notSupportedByHardware (msg : String)
  | valueError (msg : String)
  | keyError (key : String)
  | typeError (msg : String)
  | communicationError (msg : String)
deriving DecidableEq, Repr

def PyError.kind : PyError → ErrKind
  | .notSupportedByHardware _ => .nsbh
  | .valueError _ => .value
  | .keyError _ => .key
  | .typeError _ => .typ
  | .communicationError _ => .comm

/-- The error kind of an `Except` result, when it is an error. -/
def errKind {α : Type} : Except PyError α → Option ErrKind
  | .error e => some e.kind
  | .ok _ => none

instance {ε α : Type} [DecidableEq ε] [DecidableEq α] :
    DecidableEq (Except ε α) := fun x y =>
  match x, y with
  | .ok a, .ok b =>
      if h : a = b then .isTrue (by rw [h])
      else .isFalse (by intro he; cases he; exact h rfl)
  | .ok _, .error _ => .isFalse (by intro he; cases he)
  | .error _, .ok _ => .isFalse (by intro he; cases he)
  | .error e, .error e' =>
      if h : e = e' then .isTrue (by rw [h])
      else .isFalse (by intro he; cases he; exact h rfl)

/-- Python dict lookup `d[k]` on an association list (first match). -/
def lookupKey {α β : Type} [DecidableEq α] (k : α) : List (α × β) → Option β
  | [] => none
  | (k', v) :: t => if k' = k then some v else lookupKey k t

/-- Modelled from the spec: `ArduinoUno.FIRST_ANALOGUE_PIN`
(`j5.boards.arduino` is outside this repository slice).  The spec keys the
pin table by identifiers `2..N`, puts the LED on digital pin 13, and
starts analogue pins at the boundary, so the boundary is 14. -/
def FIRST_ANALOGUE_PIN : Nat := 14

/-- The mutable state of an `ArduinoHardwareBackend`: the board name used
in error messages, the per-pin state table `_digital_pins`, and a trace of
the pins pushed to the transport by `_update_digital_pin` (that method is
abstract in the source; the spec calls it the write-through). -/
structure ArduinoBackend where
  boardName : String
  digitalPins : List (Nat × DigitalPinData)
  trace : List Nat
deriving DecidableEq, Repr

/-- `ArduinoHardwareBackend.USB_IDS`: the static Device Identity Signature
set. -/
def USB_IDS : List (Nat × Nat) :=
  [(0x2341, 0x0043), (0x2a03, 0x0043), (0x1a86, 0x7523), (0x10c4, 0xea60)]

/-- A `ListPortInfo` transport port descriptor (vendor id, product id,
device path, optional serial number). -/
structure ListPortInfo where
  vid : Nat
  pid : Nat
  device : String
  serial_number : Option String
deriving DecidableEq, Repr

/-- `ArduinoHardwareBackend.is_arduino`: membership of (vid, pid) in
`USB_IDS`. -/
def is_arduino (port : ListPortInfo) : Bool :=
  (port.vid, port.pid) ∈ USB_IDS

/-- A board as constructed by `discover`: `cls.board(port.serial_number,
cls(port.device, serial_class))`.  Modelled from the spec: Board equality
and hashing are based on serial_number (the `Board` base class is outside
this repository slice), so the Python set collapses boards by serial. -/
structure DiscoveredBoard where
  serial : Option String
  device : String
deriving DecidableEq, Repr

/-- One iteration of the `discover` loop: `boards.add(...)` on the Python
set, which keeps the board already present when an equal (same-serial) one
arrives. -/
def addBoard (boards : List DiscoveredBoard) (port : ListPortInfo) :
    List DiscoveredBoard :=
  if boards.any (fun b => b.serial = port.serial_number) then boards
  else boards ++ [⟨port.serial_number, port.device⟩]

/-- `ArduinoHardwareBackend.discover`: filter the enumerated ports with
`is_arduino` and add one board per match to a set. -/
def discover (ports : List ListPortInfo) : List DiscoveredBoard :=
  (ports.filter is_arduino).foldl addBoard []

/-- `ArduinoHardwareBackend.__init__`: the pin table maps each identifier
in `range(2, ArduinoUno.FIRST_ANALOGUE_PIN)` to DIGITAL_INPUT / False. -/
def initBackend (boardName : String) : ArduinoBackend :=
  { boardName := boardName
    digitalPins :=
      (List.range' 2 (FIRST_ANALOGUE_PIN - 2)).map
        (fun i => (i, ⟨GPIOPinMode.DIGITAL_INPUT, false⟩))
    trace := [] }

/-- `_update_digital_pin`: write the stored value of a digital pin to the
Arduino; abstract in the source, modelled as appending the pin to the
write-through trace. -/
def updateDigitalPin (b : ArduinoBackend) (identifier : Nat) : ArduinoBackend :=
  { b with trace := b.trace ++ [identifier] }

/-- Mutate the pin-data object stored under `identifier` (the Python
`self._digital_pins[identifier].mode = ...` / `.state = ...`): every entry
for that key is updated in place, all other entries stay as they are. -/
def setEntry : List (Nat × DigitalPinData) → Nat →
    (DigitalPinData → DigitalPinData) → List (Nat × DigitalPinData)
  | [], _, _ => []
  | (k, v) :: t, identifier, f =>
      (if k = identifier then (k, f v) else (k, v)) :: setEntry t identifier f

def digital_pin_modes : List GPIOPinMode :=
  [GPIOPinMode.DIGITAL_INPUT, GPIOPinMode.DIGITAL_INPUT_PULLUP,
   GPIOPinMode.DIGITAL_OUTPUT]

/-- `set_gpio_pin_mode`.  Each operation returns its result (or the raised
exception) together with the backend state afterwards. -/
def set_gpio_pin_mode (b : ArduinoBackend) (identifier : Nat)
    (pin_mode : GPIOPinMode) : Except PyError Unit × ArduinoBackend :=
  if identifier < FIRST_ANALOGUE_PIN then
    if pin_mode ∈ digital_pin_modes then
      match lookupKey identifier b.digitalPins with
      | some _ =>
          let b := { b with
            digitalPins := setEntry b.digitalPins identifier
              (fun pd => { pd with mode := pin_mode }) }
          (Except.ok (), updateDigitalPin b identifier)
      | none => (Except.error (PyError.keyError (toString identifier)), b)
    else
      (Except.error (PyError.notSupportedByHardware
        (b.boardName ++ " does not support mode " ++ pin_mode.pyName ++
         " on pin " ++ toString identifier ++ ".")), b)
  else
    if pin_mode = GPIOPinMode.ANALOGUE_INPUT then (Except.ok (), b)
    else
      (Except.error (PyError.notSupportedByHardware
        (b.boardName ++ " does not support mode " ++ pin_mode.pyName ++
         " on pin " ++ toString identifier ++ ".")), b)

/-- `get_gpio_pin_mode`. -/
def get_gpio_pin_mode (b : ArduinoBackend) (identifier : Nat) :
    Except PyError GPIOPinMode × ArduinoBackend :=
  if identifier < FIRST_ANALOGUE_PIN then
    match lookupKey identifier b.digitalPins with
    | some pd => (Except.ok pd.mode, b)
    | none => (Except.error (PyError.keyError (toString identifier)), b)
  else
    (Except.ok GPIOPinMode.ANALOGUE_INPUT, b)

/-- `write_gpio_pin_digital_state`. -/
def write_gpio_pin_digital_state (b : ArduinoBackend) (identifier : Nat)
    (state : Bool) : Except PyError Unit × ArduinoBackend :=
  if FIRST_ANALOGUE_PIN ≤ identifier then
    (Except.error (PyError.notSupportedByHardware
      "Digital functions not supported on analogue pins"), b)
  else
    match lookupKey identifier b.digitalPins with
    | some pd =>
        if pd.mode ≠ GPIOPinMode.DIGITAL_OUTPUT then
          (Except.error (PyError.valueError
            ("Pin " ++ toString identifier ++
             " mode needs to be DIGITAL_OUTPUT in order to set the digital state.")),
           b)
        else
          let b := { b with
            digitalPins := setEntry b.digitalPins identifier
              (fun pd => { pd with state := state }) }
          (Except.ok (), updateDigitalPin b identifier)
    | none => (Except.error (PyError.keyError (toString identifier)), b)

/-- `get_gpio_pin_digital_state`: the last written state of the pin. -/
def get_gpio_pin_digital_state (b : ArduinoBackend) (identifier : Nat) :
    Except PyError Bool × ArduinoBackend :=
  if FIRST_ANALOGUE_PIN ≤ identifier then
    (Except.error (PyError.notSupportedByHardware
      "Digital functions not supported on analogue pins."), b)
  else
    match lookupKey identifier b.digitalPins with
    | some pd =>
        if pd.mode ≠ GPIOPinMode.DIGITAL_OUTPUT then
          (Except.error (PyError.valueError
            ("Pin " ++ toString identifier ++
             " mode needs to be DIGITAL_OUTPUT in order to read the digital state.")),
           b)
        else (Except.ok pd.state, b)
    | none => (Except.error (PyError.keyError (toString identifier)), b)

/-- `read_gpio_pin_digital_state`: queries the transport live; the
abstract `_read_digital_pin` is the oracle argument. -/
def read_gpio_pin_digital_state (oracle : Nat → Bool) (b : ArduinoBackend)
    (identifier : Nat) : Except PyError Bool × ArduinoBackend :=
  if FIRST_ANALOGUE_PIN ≤ identifier then
    (Except.error (PyError.notSupportedByHardware
      "Digital functions not supported on analogue pins."), b)
  else
    match lookupKey identifier b.digitalPins with
    | some pd =>
        if pd.mode = GPIOPinMode.DIGITAL_INPUT ∨
           pd.mode = GPIOPinMode.DIGITAL_INPUT_PULLUP then
          (Except.ok (oracle identifier), b)
        else
          (Except.error (PyError.valueError
            ("Pin " ++ toString identifier ++
             " mode needs to be DIGITAL_INPUT_* in order to read the digital state.")),
           b)
    | none => (Except.error (PyError.keyError (toString identifier)), b)

/-- `read_gpio_pin_analogue_value`: queries the transport live; the
abstract `_read_analogue_pin` is the oracle argument. -/
def read_gpio_pin_analogue_value (oracle : Nat → Rat) (b : ArduinoBackend)
    (identifier : Nat) : Except PyError Rat × ArduinoBackend :=
  if identifier < FIRST_ANALOGUE_PIN then
    (Except.error (PyError.notSupportedByHardware
      "Analogue functions not supported on digital pins."), b)
  else (Except.ok (oracle identifier), b)

/-- `get_led_state`: LED 0 is digital pin 13. -/
def get_led_state (b : ArduinoBackend) (identifier : Nat) :
    Except PyError Bool × ArduinoBackend :=
  if identifier ≠ 0 then
    (Except.error (PyError.valueError
      (b.boardName ++ " only has LED 0 (digital pin 13).")), b)
  else get_gpio_pin_digital_state b 13

/-- `set_led_state`: LED 0 is digital pin 13. -/
def set_led_state (b : ArduinoBackend) (identifier : Nat) (state : Bool) :
    Except PyError Unit × ArduinoBackend :=
  if identifier ≠ 0 then
    (Except.error (PyError.valueError
      (b.boardName ++ " only has LED 0 (digital pin 13).")), b)
  else write_gpio_pin_digital_state b 13 state

/-- Modelled from the spec: a Board held by a `BoardGroup`
(`j5.boards.board_group` is outside this repository slice; only its tests
are present).  `serial` is the identity key; `gen` is an allocation token:
two Python `Board` objects are the same instance exactly when their tokens
are equal, and every discovery run stamps the boards it constructs with a
token never used before (the spec's fresh-object guarantee). -/
structure MBoard where
  serial : String
  gen : Nat
deriving DecidableEq, Repr

/-- Modelled from the spec: `BoardGroup` holds a mapping from
serial_number to Board (`boards`) and the next fresh allocation token. -/
structure BoardGroup where
  nextGen : Nat
  boards : List (String × MBoard)
deriving DecidableEq, Repr

/-- Modelled from the spec: `update_boards()` re-runs the Backend
Discoverer (whose result is here abstracted to the list of discovered
serial numbers, the discovered set being keyed by serial) and replaces the
mapping wholesale with fresh Board objects. -/
def update_boards (g : BoardGroup) (discovered : List String) : BoardGroup :=
  { nextGen := g.nextGen + 1
    boards := discovered.map (fun s => (s, ⟨s, g.nextGen⟩)) }

/-- Modelled from the spec: `singular()` returns the one board if exactly
one is present and otherwise raises a CommunicationError ("no board
found" when empty, "more than one board found, use explicit selection"
otherwise). -/
def singular (g : BoardGroup) : Except PyError MBoard :=
  match g.boards with
  | [(_, b)] => Except.ok b
  | [] => Except.error (PyError.communicationError "no board found")
  | _ => Except.error (PyError.communicationError
      "more than one board found, use explicit selection")

/-- A Python value used as a `BoardGroup` subscript in the tests: a
string, an integer, or a dict. -/
inductive PyKey where
  | pyStr (s : String)
  | pyInt (n : Int)
  | pyDict
deriving DecidableEq, Repr

/-- Modelled from the spec: `BoardGroup.__getitem__` raises TypeError for
a non-string key and KeyError (the NotFound kind) for an unmapped string
key. -/
def getitem (g : BoardGroup) (k : PyKey) : Except PyError MBoard :=
  match k with
  | .pyStr s =>
      match lookupKey s g.boards with
      | some b => Except.ok b
      | none => Except.error (PyError.keyError s)
  | _ => Except.error (PyError.typeError "board lookup key must be a string")

/-- Ordering of boards by serial number. -/
def serialLE (a b : MBoard) : Prop := a.serial ≤ b.serial

instance : DecidableRel serialLE := fun a b =>
  inferInstanceAs (Decidable (a.serial ≤ b.serial))

instance : IsTotal MBoard serialLE := ⟨fun a b => le_total a.serial b.serial⟩

instance : IsTrans MBoard serialLE := ⟨fun _ _ _ h h' => le_trans h h'⟩

/-- Modelled from the spec: iterating a `BoardGroup` yields its boards
sorted by serial_number ascending; each call to `iter` sorts a private
copy of the current board set. -/
def list_boards (g : BoardGroup) : List MBoard :=
  (g.boards.map Prod.snd).insertionSort serialLE

/-- One iterator cursor: the items not yet yielded. -/
abbrev Cursor : Type := List MBoard

/-- Run an interleaving schedule over two cursors: `true` advances the
first, `false` the second; returns what each cursor yielded, in order.  An
exhausted cursor yields nothing (StopIteration). -/
def runSchedule : List Bool → Cursor → Cursor → List MBoard × List MBoard
  | [], _, _ => ([], [])
  | true :: rest, c₁, c₂ =>
      match c₁ with
      | [] => runSchedule rest [] c₂
      | b :: t =>
          let r := runSchedule rest t c₂
          (b :: r.1, r.2)
  | false :: rest, c₁, c₂ =>
      match c₂ with
      | [] => runSchedule rest c₁ []
      | b :: t =>
          let r := runSchedule rest c₁ t
          (r.1, b :: r.2)

/-- The boards map is well formed: every entry's key is its board's
serial, and no serial occurs twice. -/
def WF (g : BoardGroup) : Prop :=
  (∀ p ∈ g.boards, p.2.serial = p.1) ∧ (g.boards.map Prod.fst).Nodup

/-- All allocation tokens in the group predate the group's next fresh
token. -/
def GenWF (g : BoardGroup) : Prop :=
  ∀ p ∈ g.boards, p.2.gen < g.nextGen

instance (g : BoardGroup) : Decidable (GenWF g) :=
  inferInstanceAs (Decidable (∀ p ∈ g.boards, p.2.gen < g.nextGen))

instance (g : BoardGroup) : Decidable (WF g) :=
  inferInstanceAs (Decidable (_ ∧ _))

/-- The key set of the pin table as built by `__init__`: the digital pin
identifiers `2, …, FIRST_ANALOGUE_PIN - 1`. -/
def stdKeys : List Nat := List.range' 2 (FIRST_ANALOGUE_PIN - 2)

/-- The pin table has exactly the standard digital-pin key set. -/
def KeysEq (b : ArduinoBackend) : Prop :=
  b.digitalPins.map Prod.fst = stdKeys

instance (b : ArduinoBackend) : Decidable (KeysEq b) :=
  inferInstanceAs (Decidable (_ = _))

/- ### Helper lemmas -/

theorem lookupKey_mem {α β : Type} [DecidableEq α] {k : α} {v : β} :
    ∀ {l : List (α × β)}, lookupKey k l = some v → (k, v) ∈ l := by
  intro l
  induction l with
  | nil => intro h; simp [lookupKey] at h
  | cons p t ih =>
      intro h
      obtain ⟨a, w⟩ := p
      rw [lookupKey] at h
      by_cases hk : a = k
      · rw [if_pos hk] at h
        injection h with h
        subst hk
        subst h
        exact List.mem_cons_self _ _
      · rw [if_neg hk] at h
        exact List.mem_cons_of_mem _ (ih h)

theorem lookupKey_map_self {α β : Type} [DecidableEq α] (f : α → β) (k : α) :
    ∀ l : List α,
      lookupKey k (l.map fun x => (x, f x)) =
        if k ∈ l then some (f k) else none := by
  intro l
  induction l with
  | nil => simp [lookupKey]
  | cons x t ih =>
      simp only [List.map_cons, lookupKey, ih]
      by_cases hx : x = k
      · subst hx; simp
      · simp [hx, Ne.symm hx]

theorem lookupKey_isSome_iff {α β : Type} [DecidableEq α] (k : α) :
    ∀ l : List (α × β), (lookupKey k l).isSome ↔ k ∈ l.map Prod.fst := by
  intro l
  induction l with
  | nil => simp [lookupKey]
  | cons p t ih =>
      rw [lookupKey]
      by_cases hk : p.1 = k
      · simp [hk]
      · simp [hk, ih, Ne.symm hk]

theorem keys_setEntry (l : List (Nat × DigitalPinData)) (i : Nat)
    (f : DigitalPinData → DigitalPinData) :
    (setEntry l i f).map Prod.fst = l.map Prod.fst := by
  induction l with
  | nil => rfl
  | cons p t ih =>
      obtain ⟨a, v⟩ := p
      by_cases hp : a = i
      · rw [setEntry, if_pos hp]
        simp [ih]
      · rw [setEntry, if_neg hp]
        simp [ih]

theorem lookupKey_setEntry_self (l : List (Nat × DigitalPinData)) (i : Nat)
    (f : DigitalPinData → DigitalPinData) :
    lookupKey i (setEntry l i f) = (lookupKey i l).map f := by
  induction l with
  | nil => rfl
  | cons p t ih =>
      obtain ⟨a, v⟩ := p
      by_cases hp : a = i
      · rw [setEntry, if_pos hp, lookupKey, if_pos hp, lookupKey, if_pos hp]
        rfl
      · rw [setEntry, if_neg hp, lookupKey, if_neg hp, lookupKey, if_neg hp]
        exact ih

theorem lookupKey_setEntry_other (l : List (Nat × DigitalPinData)) (i j : Nat)
    (hj : j ≠ i) (f : DigitalPinData → DigitalPinData) :
    lookupKey j (setEntry l i f) = lookupKey j l := by
  induction l with
  | nil => rfl
  | cons p t ih =>
      obtain ⟨a, v⟩ := p
      by_cases hp : a = i
      · have haj : a ≠ j := by rw [hp]; exact fun h => hj h.symm
        rw [setEntry, if_pos hp, lookupKey, if_neg haj, lookupKey, if_neg haj]
        exact ih
      · rw [setEntry, if_neg hp, lookupKey, lookupKey]
        by_cases haj : a = j
        · rw [if_pos haj, if_pos haj]
        · rw [if_neg haj, if_neg haj]
          exact ih

theorem get_gpio_pin_mode_state (b : ArduinoBackend) (i : Nat) :
    (get_gpio_pin_mode b i).2 = b := by
  unfold get_gpio_pin_mode
  split
  · split <;> rfl
  · rfl

theorem get_gpio_pin_digital_state_state (b : ArduinoBackend) (i : Nat) :
    (get_gpio_pin_digital_state b i).2 = b := by
  unfold get_gpio_pin_digital_state
  split
  · rfl
  · split
    · split <;> rfl
    · rfl

theorem read_gpio_pin_digital_state_state (od : Nat → Bool)
    (b : ArduinoBackend) (i : Nat) :
    (read_gpio_pin_digital_state od b i).2 = b := by
  unfold read_gpio_pin_digital_state
  split
  · rfl
  · split
    · split <;> rfl
    · rfl

theorem read_gpio_pin_analogue_value_state (oa : Nat → Rat)
    (b : ArduinoBackend) (i : Nat) :
    (read_gpio_pin_analogue_value oa b i).2 = b := by
  unfold read_gpio_pin_analogue_value
  split <;> rfl

/- ### Claim theorems -/

/-- Claim C1: for a Board Group, `singular()` returns the one board if
exactly one board is present; if the group is empty or contains more than
one board, it fails with a CommunicationError kind. -/
theorem singular_spec (g : BoardGroup) :
    (∀ s b, g.boards = [(s, b)] → singular g = Except.ok b) ∧
    (g.boards = [] → errKind (singular g) = some ErrKind.comm) ∧
    (1 < g.boards.length → errKind (singular g) = some ErrKind.comm) := by
  refine ⟨?_, ?_, ?_⟩
  · intro s b h
    simp [singular, h]
  · intro h
    simp [singular, h, errKind, PyError.kind]
  · intro h
    match hb : g.boards with
    | [] => rw [hb] at h; simp at h
    | [p] => rw [hb] at h; simp at h
    | p :: q :: t => simp [singular, hb, errKind, PyError.kind]

/-- Witness for C1 at concrete groups of size one, zero and two. -/
theorem singular_spec_witness :
    singular ⟨1, [("A", ⟨"A", 0⟩)]⟩ = Except.ok ⟨"A", 0⟩ ∧
    errKind (singular ⟨0, []⟩) = some ErrKind.comm ∧
    errKind (singular ⟨2, [("A", ⟨"A", 0⟩), ("B", ⟨"B", 1⟩)]⟩) =
      some ErrKind.comm :=
  ⟨(singular_spec _).1 "A" ⟨"A", 0⟩ rfl, (singular_spec _).2.1 rfl,
   (singular_spec _).2.2 (by decide)⟩

/-- Claim C8: looking up a Board Group with a non-string key fails with a
TypeError kind, looking up with an unmapped string key fails with a
NotFound (KeyError) kind, and the two kinds are distinct. -/
theorem getitem_spec (g : BoardGroup) (k : PyKey) :
    (∀ n : Int, k = PyKey.pyInt n → errKind (getitem g k) = some ErrKind.typ) ∧
    (k = PyKey.pyDict → errKind (getitem g k) = some ErrKind.typ) ∧
    (∀ s, k = PyKey.pyStr s → lookupKey s g.boards = none →
      errKind (getitem g k) = some ErrKind.key) ∧
    ErrKind.typ ≠ ErrKind.key := by
  refine ⟨?_, ?_, ?_, by decide⟩
  · intro n h
    subst h
    simp [getitem, errKind, PyError.kind]
  · intro h
    subst h
    simp [getitem, errKind, PyError.kind]
  · intro s h hl
    subst h
    simp [getitem, hl, errKind, PyError.kind]

/-- Witness for C8 at a concrete one-board group with an integer key, a
dict key and an unmapped string key. -/
theorem getitem_spec_witness :
    errKind (getitem ⟨1, [("A", ⟨"A", 0⟩)]⟩ (PyKey.pyInt 0)) =
      some ErrKind.typ ∧
    errKind (getitem ⟨1, [("A", ⟨"A", 0⟩)]⟩ PyKey.pyDict) =
      some ErrKind.typ ∧
    errKind (getitem ⟨1, [("A", ⟨"A", 0⟩)]⟩ (PyKey.pyStr "ARGHHHJ")) =
      some ErrKind.key :=
  ⟨(getitem_spec _ _).1 0 rfl, (getitem_spec _ _).2.1 rfl,
   (getitem_spec _ _).2.2.1 "ARGHHHJ" rfl (by decide)⟩

/-- Claim C2: after `update_boards()` the mapping is replaced wholesale by
the newly discovered set keyed by serial (serials no longer discovered are
removed), and a still-present serial maps to a Board that is not the same
instance as the one held before the refresh. -/
theorem update_boards_spec (g : BoardGroup) (ds : List String)
    (hg : GenWF g) :
    (∀ s, s ∈ ds →
      lookupKey s (update_boards g ds).boards = some ⟨s, g.nextGen⟩) ∧
    (∀ s, s ∉ ds → lookupKey s (update_boards g ds).boards = none) ∧
    (∀ s b b', lookupKey s g.boards = some b →
      lookupKey s (update_boards g ds).boards = some b' → b' ≠ b) := by
  refine ⟨?_, ?_, ?_⟩
  · intro s hs
    rw [update_boards, lookupKey_map_self, if_pos hs]
  · intro s hs
    rw [update_boards, lookupKey_map_self, if_neg hs]
  · intro s b b' hold hnew
    rw [update_boards, lookupKey_map_self] at hnew
    by_cases hs : s ∈ ds
    · rw [if_pos hs] at hnew
      injection hnew with hnew
      have hb : b.gen < g.nextGen := hg (s, b) (lookupKey_mem hold)
      intro he
      rw [he] at hnew
      rw [← hnew] at hb
      exact lt_irrefl _ hb
    · rw [if_neg hs] at hnew
      cases hnew

/-- Witness for C2: a group holding one board for serial "A" is refreshed
with "A" still discovered and "B" newly discovered; "A" maps to a fresh
instance and only the discovered serials are present. -/
theorem update_boards_spec_witness :
    lookupKey "A" (update_boards ⟨1, [("A", ⟨"A", 0⟩)]⟩ ["A", "B"]).boards =
      some ⟨"A", 1⟩ ∧
    lookupKey "C" (update_boards ⟨1, [("A", ⟨"A", 0⟩)]⟩ ["A", "B"]).boards =
      none ∧
    (⟨"A", 1⟩ : MBoard) ≠ ⟨"A", 0⟩ :=
  ⟨(update_boards_spec ⟨1, [("A", ⟨"A", 0⟩)]⟩ ["A", "B"] (by decide)).1
      "A" (by decide),
   (update_boards_spec ⟨1, [("A", ⟨"A", 0⟩)]⟩ ["A", "B"] (by decide)).2.1
      "C" (by decide),
   (update_boards_spec ⟨1, [("A", ⟨"A", 0⟩)]⟩ ["A", "B"] (by decide)).2.2
      "A" ⟨"A", 0⟩ ⟨"A", 1⟩ (by decide) (by decide)⟩

/-- Claim C9: the read-only queries (`get_gpio_pin_mode`,
`get_gpio_pin_digital_state`, `read_gpio_pin_digital_state`,
`read_gpio_pin_analogue_value`) leave the backend state — in particular
every pin's cached mode and state — unchanged, whether they succeed or
fail. -/
theorem readonly_queries_frame (b : ArduinoBackend) (i : Nat)
    (od : Nat → Bool) (oa : Nat → Rat) :
    (get_gpio_pin_mode b i).2 = b ∧
    (get_gpio_pin_digital_state b i).2 = b ∧
    (read_gpio_pin_digital_state od b i).2 = b ∧
    (read_gpio_pin_analogue_value oa b i).2 = b :=
  ⟨get_gpio_pin_mode_state b i, get_gpio_pin_digital_state_state b i,
   read_gpio_pin_digital_state_state od b i,
   read_gpio_pin_analogue_value_state oa b i⟩

/-- Claim C7: `get_led_state` and `set_led_state` fail with the
InvalidArgument (ValueError) kind for every identifier other than 0,
leaving the state unchanged; for identifier 0 they delegate to the
digital-state operations on pin 13, so they fail with the InvalidState
(ValueError) kind when pin 13's mode is not DIGITAL_OUTPUT. -/
theorem led_spec (b : ArduinoBackend) (i : Nat) (st : Bool) :
    (i ≠ 0 →
      get_led_state b i =
        (Except.error (PyError.valueError
          (b.boardName ++ " only has LED 0 (digital pin 13).")), b) ∧
      set_led_state b i st =
        (Except.error (PyError.valueError
          (b.boardName ++ " only has LED 0 (digital pin 13).")), b)) ∧
    (get_led_state b 0 = get_gpio_pin_digital_state b 13) ∧
    (set_led_state b 0 st = write_gpio_pin_digital_state b 13 st) ∧
    (∀ pd, lookupKey 13 b.digitalPins = some pd →
      pd.mode ≠ GPIOPinMode.DIGITAL_OUTPUT →
      errKind (get_led_state b 0).1 = some ErrKind.value ∧
      errKind (set_led_state b 0 st).1 = some ErrKind.value) := by
  refine ⟨?_, ?_, ?_, ?_⟩
  · intro h
    constructor
    · rw [get_led_state, if_pos h]
    · rw [set_led_state, if_pos h]
  · rw [get_led_state, if_neg (by decide)]
  · rw [set_led_state, if_neg (by decide)]
  · intro pd hpd hmode
    constructor
    · rw [get_led_state, if_neg (by decide), get_gpio_pin_digital_state,
        if_neg (by decide), hpd]
      simp only [ne_eq, hmode, not_false_iff, if_neg]
      rfl
    · rw [set_led_state, if_neg (by decide), write_gpio_pin_digital_state,
        if_neg (by decide), hpd]
      simp only [ne_eq, hmode, not_false_iff, if_neg]
      rfl

/-- Witness for C7: on a freshly initialised backend (pin 13 in
DIGITAL_INPUT mode), LED id 1 is rejected and LED id 0 inherits the
InvalidState failure of pin 13. -/
theorem led_spec_witness :
    get_led_state (initBackend "Arduino Uno") 1 =
      (Except.error (PyError.valueError
        "Arduino Uno only has LED 0 (digital pin 13)."),
       initBackend "Arduino Uno") ∧
    errKind (get_led_state (initBackend "Arduino Uno") 0).1 =
      some ErrKind.value ∧
    errKind (set_led_state (initBackend "Arduino Uno") 0 true).1 =
      some ErrKind.value :=
  ⟨((led_spec (initBackend "Arduino Uno") 1 true).1 (by decide)).1,
   ((led_spec (initBackend "Arduino Uno") 0 true).2.2.2
      ⟨GPIOPinMode.DIGITAL_INPUT, false⟩ (by decide) (by decide)).1,
   ((led_spec (initBackend "Arduino Uno") 0 true).2.2.2
      ⟨GPIOPinMode.DIGITAL_INPUT, false⟩ (by decide) (by decide)).2⟩

/-- Counterexample to claim C3 as stated: pin 0 is below the analogue
boundary, yet `write_gpio_pin_digital_state(0, true)` neither fails with
the NotSupportedByHardware kind, nor with the InvalidState (ValueError)
kind, nor succeeds — the table lookup raises a KeyError, because the pin
table only starts at pin 2. -/
theorem write_digital_pin0_counterexample :
    write_gpio_pin_digital_state (initBackend "Arduino Uno") 0 true =
      (Except.error (PyError.keyError "0"), initBackend "Arduino Uno") ∧
    errKind (write_gpio_pin_digital_state (initBackend "Arduino Uno") 0 true).1 ≠
      some ErrKind.nsbh ∧
    errKind (write_gpio_pin_digital_state (initBackend "Arduino Uno") 0 true).1 ≠
      some ErrKind.value ∧
    (write_gpio_pin_digital_state (initBackend "Arduino Uno") 0 true).1 ≠
      Except.ok () := by decide

/-- Claim C3 (amended): `write_gpio_pin_digital_state` fails with the
NotSupportedByHardware kind for analogue identifiers; for identifiers
below the boundary with no pin-table entry (pins 0 and 1) it fails with a
KeyError; for identifiers with an entry it fails with the InvalidState
(ValueError) kind when the mode is not DIGITAL_OUTPUT, and otherwise
updates the cached state, writes through to the transport, and a
subsequent `get_gpio_pin_digital_state` returns the state just
written. -/
theorem write_digital_spec (b : ArduinoBackend) (i : Nat) (st : Bool) :
    (FIRST_ANALOGUE_PIN ≤ i →
      write_gpio_pin_digital_state b i st =
        (Except.error (PyError.notSupportedByHardware
          "Digital functions not supported on analogue pins"), b)) ∧
    (i < FIRST_ANALOGUE_PIN → lookupKey i b.digitalPins = none →
      write_gpio_pin_digital_state b i st =
        (Except.error (PyError.keyError (toString i)), b)) ∧
    (∀ pd, i < FIRST_ANALOGUE_PIN → lookupKey i b.digitalPins = some pd →
      pd.mode ≠ GPIOPinMode.DIGITAL_OUTPUT →
      errKind (write_gpio_pin_digital_state b i st).1 = some ErrKind.value ∧
      (write_gpio_pin_digital_state b i st).2 = b) ∧
    (∀ pd, i < FIRST_ANALOGUE_PIN → lookupKey i b.digitalPins = some pd →
      pd.mode = GPIOPinMode.DIGITAL_OUTPUT →
      (write_gpio_pin_digital_state b i st).1 = Except.ok () ∧
      lookupKey i (write_gpio_pin_digital_state b i st).2.digitalPins =
        some ⟨GPIOPinMode.DIGITAL_OUTPUT, st⟩ ∧
      (write_gpio_pin_digital_state b i st).2.trace = b.trace ++ [i] ∧
      (get_gpio_pin_digital_state (write_gpio_pin_digital_state b i st).2 i).1 =
        Except.ok st) := by
  refine ⟨?_, ?_, ?_, ?_⟩
  · intro h
    rw [write_gpio_pin_digital_state, if_pos h]
  · intro h hl
    rw [write_gpio_pin_digital_state, if_neg (not_le.mpr h), hl]
  · intro pd h hl hmode
    refine ⟨?_, ?_⟩ <;>
      · rw [write_gpio_pin_digital_state, if_neg (not_le.mpr h), hl]
        simp [hmode, errKind, PyError.kind]
  · intro pd h hl hmode
    have hred : write_gpio_pin_digital_state b i st =
        (Except.ok (),
         updateDigitalPin { b with digitalPins := setEntry b.digitalPins i fun q => { q with state := st } } i) := by
      rw [write_gpio_pin_digital_state, if_neg (not_le.mpr h), hl]
      simp [hmode]
    have hlook : lookupKey i (setEntry b.digitalPins i
        fun q => { q with state := st }) = some ⟨pd.mode, st⟩ := by
      rw [lookupKey_setEntry_self, hl]
      rfl
    rw [hred]
    refine ⟨rfl, ?_, rfl, ?_⟩
    · show lookupKey i (setEntry b.digitalPins i _) = _
      rw [hlook, hmode]
    · simp [get_gpio_pin_digital_state, updateDigitalPin, not_le.mpr h,
        hlook, hmode]

/-- Witness for C3 at concrete inputs: analogue pin 14, input-mode pin 4,
and pin 5 set to DIGITAL_OUTPUT. -/
theorem write_digital_spec_witness :
    errKind (write_gpio_pin_digital_state (initBackend "Arduino Uno") 14 true).1 =
      some ErrKind.nsbh ∧
    errKind (write_gpio_pin_digital_state (initBackend "Arduino Uno") 4 true).1 =
      some ErrKind.value ∧
    (write_gpio_pin_digital_state
        (set_gpio_pin_mode (initBackend "Arduino Uno") 5
          GPIOPinMode.DIGITAL_OUTPUT).2 5 true).1 = Except.ok () ∧
    (get_gpio_pin_digital_state
        (write_gpio_pin_digital_state
          (set_gpio_pin_mode (initBackend "Arduino Uno") 5
            GPIOPinMode.DIGITAL_OUTPUT).2 5 true).2 5).1 = Except.ok true := by
  refine ⟨?_, ?_, ?_, ?_⟩
  · rw [(write_digital_spec (initBackend "Arduino Uno") 14 true).1 (by decide)]
    rfl
  · exact ((write_digital_spec (initBackend "Arduino Uno") 4 true).2.2.1
      ⟨GPIOPinMode.DIGITAL_INPUT, false⟩ (by decide) (by decide) (by decide)).1
  · exact ((write_digital_spec
        (set_gpio_pin_mode (initBackend "Arduino Uno") 5
          GPIOPinMode.DIGITAL_OUTPUT).2 5 true).2.2.2
      ⟨GPIOPinMode.DIGITAL_OUTPUT, false⟩ (by decide) (by decide) rfl).1
  · exact ((write_digital_spec
        (set_gpio_pin_mode (initBackend "Arduino Uno") 5
          GPIOPinMode.DIGITAL_OUTPUT).2 5 true).2.2.2
      ⟨GPIOPinMode.DIGITAL_OUTPUT, false⟩ (by decide) (by decide) rfl).2.2.2

/-- Counterexample to claim C4 as stated: pin 0 is a digital pin (below
the boundary) and DIGITAL_OUTPUT is in the accepted mode set, yet
`set_gpio_pin_mode(0, DIGITAL_OUTPUT)` does not update the table and push
the mode — the table lookup raises a KeyError, because the pin table only
starts at pin 2; nor is the failure of the NotSupportedByHardware kind
claimed for all rejected combinations. -/
theorem set_mode_pin0_counterexample :
    set_gpio_pin_mode (initBackend "Arduino Uno") 0 GPIOPinMode.DIGITAL_OUTPUT =
      (Except.error (PyError.keyError "0"), initBackend "Arduino Uno") ∧
    (set_gpio_pin_mode (initBackend "Arduino Uno") 0
        GPIOPinMode.DIGITAL_OUTPUT).1 ≠ Except.ok () ∧
    errKind (set_gpio_pin_mode (initBackend "Arduino Uno") 0
        GPIOPinMode.DIGITAL_OUTPUT).1 ≠ some ErrKind.nsbh := by decide

/-- Claim C4 (amended): `set_gpio_pin_mode` accepts exactly
{DIGITAL_INPUT, DIGITAL_INPUT_PULLUP, DIGITAL_OUTPUT} for digital pins
having a pin-table entry, updating the cached mode and pushing it to the
transport; for pins 0 and 1 (below the boundary but without an entry) an
accepted digital mode fails with a KeyError; it accepts only
ANALOGUE_INPUT, as a no-op, for analogue pins; every other (pin, mode)
combination fails with the NotSupportedByHardware kind. -/
theorem set_mode_spec (b : ArduinoBackend) (i : Nat) (m : GPIOPinMode) :
    (∀ pd, i < FIRST_ANALOGUE_PIN → m ∈ digital_pin_modes →
      lookupKey i b.digitalPins = some pd →
      (set_gpio_pin_mode b i m).1 = Except.ok () ∧
      lookupKey i (set_gpio_pin_mode b i m).2.digitalPins =
        some ⟨m, pd.state⟩ ∧
      (∀ j, j ≠ i → lookupKey j (set_gpio_pin_mode b i m).2.digitalPins =
        lookupKey j b.digitalPins) ∧
      (set_gpio_pin_mode b i m).2.trace = b.trace ++ [i]) ∧
    (i < FIRST_ANALOGUE_PIN → m ∈ digital_pin_modes →
      lookupKey i b.digitalPins = none →
      set_gpio_pin_mode b i m =
        (Except.error (PyError.keyError (toString i)), b)) ∧
    (i < FIRST_ANALOGUE_PIN → m ∉ digital_pin_modes →
      errKind (set_gpio_pin_mode b i m).1 = some ErrKind.nsbh ∧
      (set_gpio_pin_mode b i m).2 = b) ∧
    (FIRST_ANALOGUE_PIN ≤ i → m = GPIOPinMode.ANALOGUE_INPUT →
      set_gpio_pin_mode b i m = (Except.ok (), b)) ∧
    (FIRST_ANALOGUE_PIN ≤ i → m ≠ GPIOPinMode.ANALOGUE_INPUT →
      errKind (set_gpio_pin_mode b i m).1 = some ErrKind.nsbh ∧
      (set_gpio_pin_mode b i m).2 = b) := by
  refine ⟨?_, ?_, ?_, ?_, ?_⟩
  · intro pd h hm hl
    have hred : set_gpio_pin_mode b i m =
        (Except.ok (),
         updateDigitalPin { b with digitalPins := setEntry b.digitalPins i fun q => { q with mode := m } } i) := by
      rw [set_gpio_pin_mode, if_pos h, if_pos hm, hl]
    rw [hred]
    refine ⟨rfl, ?_, ?_, rfl⟩
    · show lookupKey i (setEntry b.digitalPins i _) = _
      rw [lookupKey_setEntry_self, hl]
      rfl
    · intro j hj
      show lookupKey j (setEntry b.digitalPins i _) = _
      exact lookupKey_setEntry_other _ _ _ hj _
  · intro h hm hl
    rw [set_gpio_pin_mode, if_pos h, if_pos hm, hl]
  · intro h hm
    rw [set_gpio_pin_mode, if_pos h, if_neg hm]
    exact ⟨rfl, rfl⟩
  · intro h hm
    rw [set_gpio_pin_mode, if_neg (not_lt.mpr h), if_pos hm]
  · intro h hm
    rw [set_gpio_pin_mode, if_neg (not_lt.mpr h), if_neg hm]
    exact ⟨rfl, rfl⟩

/-- Witness for C4 at concrete inputs: pin 5 to DIGITAL_OUTPUT (accepted,
write-through), pin 5 to ANALOGUE_INPUT (rejected), pin 14 to
ANALOGUE_INPUT (no-op) and pin 14 to DIGITAL_OUTPUT (rejected). -/
theorem set_mode_spec_witness :
    (set_gpio_pin_mode (initBackend "Arduino Uno") 5
        GPIOPinMode.DIGITAL_OUTPUT).1 = Except.ok () ∧
    lookupKey 5 (set_gpio_pin_mode (initBackend "Arduino Uno") 5
        GPIOPinMode.DIGITAL_OUTPUT).2.digitalPins =
      some ⟨GPIOPinMode.DIGITAL_OUTPUT, false⟩ ∧
    (set_gpio_pin_mode (initBackend "Arduino Uno") 5
        GPIOPinMode.DIGITAL_OUTPUT).2.trace = [5] ∧
    errKind (set_gpio_pin_mode (initBackend "Arduino Uno") 5
        GPIOPinMode.ANALOGUE_INPUT).1 = some ErrKind.nsbh ∧
    set_gpio_pin_mode (initBackend "Arduino Uno") 14
        GPIOPinMode.ANALOGUE_INPUT =
      (Except.ok (), initBackend "Arduino Uno") ∧
    errKind (set_gpio_pin_mode (initBackend "Arduino Uno") 14
        GPIOPinMode.DIGITAL_OUTPUT).1 = some ErrKind.nsbh := by
  have h₁ := (set_mode_spec (initBackend "Arduino Uno") 5
    GPIOPinMode.DIGITAL_OUTPUT).1 ⟨GPIOPinMode.DIGITAL_INPUT, false⟩
    (by decide) (by decide) (by decide)
  have h₂ := (set_mode_spec (initBackend "Arduino Uno") 5
    GPIOPinMode.ANALOGUE_INPUT).2.2.1 (by decide) (by decide)
  have h₃ := (set_mode_spec (initBackend "Arduino Uno") 14
    GPIOPinMode.ANALOGUE_INPUT).2.2.2.1 (by decide) rfl
  have h₄ := (set_mode_spec (initBackend "Arduino Uno") 14
    GPIOPinMode.DIGITAL_OUTPUT).2.2.2.2 (by decide) (by decide)
  exact ⟨h₁.1, h₁.2.1, by rw [h₁.2.2.2]; rfl, h₂.1, h₃, h₄.1⟩

theorem mem_addBoard_of_mem {acc : List DiscoveredBoard} {p : ListPortInfo}
    {b : DiscoveredBoard} (hb : b ∈ acc) : b ∈ addBoard acc p := by
  rw [addBoard]
  split
  · exact hb
  · exact List.mem_append_left _ hb

theorem mem_foldl_addBoard_of_mem :
    ∀ (l : List ListPortInfo) (acc : List DiscoveredBoard)
      (b : DiscoveredBoard), b ∈ acc → b ∈ l.foldl addBoard acc := by
  intro l
  induction l with
  | nil => intro acc b hb; exact hb
  | cons p t ih =>
      intro acc b hb
      exact ih (addBoard acc p) b (mem_addBoard_of_mem hb)

theorem mem_foldl_addBoard :
    ∀ (l : List ListPortInfo) (acc : List DiscoveredBoard)
      (b : DiscoveredBoard), b ∈ l.foldl addBoard acc →
      b ∈ acc ∨ ∃ p ∈ l, b = ⟨p.serial_number, p.device⟩ := by
  intro l
  induction l with
  | nil => intro acc b hb; exact Or.inl hb
  | cons p t ih =>
      intro acc b hb
      rcases ih (addBoard acc p) b hb with hacc | ⟨q, hq, he⟩
      · rw [addBoard] at hacc
        split at hacc
        · exact Or.inl hacc
        · rcases List.mem_append.mp hacc with h | h
          · exact Or.inl h
          · refine Or.inr ⟨p, List.mem_cons_self _ _, ?_⟩
            simpa using h
      · exact Or.inr ⟨q, List.mem_cons_of_mem _ hq, he⟩

theorem exists_serial_foldl_addBoard :
    ∀ (l : List ListPortInfo) (acc : List DiscoveredBoard)
      (p : ListPortInfo), p ∈ l →
      ∃ b ∈ l.foldl addBoard acc, b.serial = p.serial_number := by
  intro l
  induction l with
  | nil => intro acc p hp; cases hp
  | cons q t ih =>
      intro acc p hp
      rcases List.mem_cons.mp hp with he | hm
      · subst he
        by_cases hany : acc.any (fun b => b.serial = p.serial_number) = true
        · obtain ⟨b, hb, hbs⟩ := List.any_eq_true.mp hany
          refine ⟨b, ?_, of_decide_eq_true hbs⟩
          refine mem_foldl_addBoard_of_mem t _ b ?_
          rw [addBoard, if_pos hany]
          exact hb
        · refine ⟨⟨p.serial_number, p.device⟩, ?_, rfl⟩
          refine mem_foldl_addBoard_of_mem t _ _ ?_
          rw [addBoard, if_neg hany]
          exact List.mem_append_right _ (List.mem_singleton_self _)
      · exact ih (addBoard acc q) p hm

theorem pairwise_foldl_addBoard :
    ∀ (l : List ListPortInfo) (acc : List DiscoveredBoard),
      acc.Pairwise (fun b₁ b₂ => b₁.serial ≠ b₂.serial) →
      (l.foldl addBoard acc).Pairwise (fun b₁ b₂ => b₁.serial ≠ b₂.serial) := by
  intro l
  induction l with
  | nil => intro acc h; exact h
  | cons p t ih =>
      intro acc h
      refine ih (addBoard acc p) ?_
      rw [addBoard]
      split
      · exact h
      · rename_i hany
        rw [List.pairwise_append]
        refine ⟨h, List.pairwise_singleton _ _, ?_⟩
        intro a ha c hc
        rw [List.mem_singleton] at hc
        subst hc
        have hfalse : acc.any (fun b => b.serial = p.serial_number) = false :=
          Bool.eq_false_iff.mpr hany
        intro hser
        exact absurd (decide_eq_true hser)
          (List.any_eq_false.mp hfalse a ha)

/-- Claim C6: `discover` returns a set of boards with exactly one board
per discovered serial among the descriptors whose (vendor_id, product_id)
is in the Device Identity Signature set: every returned board is built
from a matching descriptor's serial_number and device path, every
matching descriptor has a board carrying its serial, no two returned
boards share a serial (the result is a set), and non-matching descriptors
contribute nothing. -/
theorem discover_spec (ports : List ListPortInfo) :
    (∀ b ∈ discover ports, ∃ p ∈ ports, is_arduino p = true ∧
        b.serial = p.serial_number ∧ b.device = p.device) ∧
    (∀ p ∈ ports, is_arduino p = true →
        ∃ b ∈ discover ports, b.serial = p.serial_number) ∧
    (discover ports).Pairwise (fun b₁ b₂ => b₁.serial ≠ b₂.serial) := by
  refine ⟨?_, ?_, ?_⟩
  · intro b hb
    rcases mem_foldl_addBoard _ _ _ hb with h | ⟨p, hp, he⟩
    · cases h
    · obtain ⟨hp₁, hp₂⟩ := List.mem_filter.mp hp
      exact ⟨p, hp₁, hp₂, by rw [he], by rw [he]⟩
  · intro p hp hard
    exact exists_serial_foldl_addBoard _ [] p
      (List.mem_filter.mpr ⟨hp, hard⟩)
  · exact pairwise_foldl_addBoard _ [] List.Pairwise.nil

/-- Witness for C6: two matching Unos and one unrecognised device; the
matching serial is present, and the returned board for it carries that
port's data. -/
theorem discover_spec_witness :
    (∃ b ∈ discover
        [⟨0x2341, 0x0043, "/dev/ttyACM0", some "S1"⟩,
         ⟨0x1111, 0x2222, "/dev/ttyUSB9", some "S9"⟩,
         ⟨0x1a86, 0x7523, "/dev/ttyUSB0", some "S2"⟩],
      b.serial = some "S1") ∧
    (∃ p ∈ ([⟨0x2341, 0x0043, "/dev/ttyACM0", some "S1"⟩,
         ⟨0x1111, 0x2222, "/dev/ttyUSB9", some "S9"⟩,
         ⟨0x1a86, 0x7523, "/dev/ttyUSB0", some "S2"⟩] : List ListPortInfo),
      is_arduino p = true ∧ (⟨some "S2", "/dev/ttyUSB0"⟩ : DiscoveredBoard).serial = p.serial_number ∧
      (⟨some "S2", "/dev/ttyUSB0"⟩ : DiscoveredBoard).device = p.device) :=
  ⟨(discover_spec _).2.1 ⟨0x2341, 0x0043, "/dev/ttyACM0", some "S1"⟩
      (by decide) (by decide),
   (discover_spec _).1 ⟨some "S2", "/dev/ttyUSB0"⟩ (by decide)⟩

theorem runSchedule_take :
    ∀ (sched : List Bool) (c₁ c₂ : Cursor),
      (runSchedule sched c₁ c₂).1 = c₁.take (sched.count true) ∧
      (runSchedule sched c₁ c₂).2 = c₂.take (sched.count false) := by
  intro sched
  induction sched with
  | nil => intro c₁ c₂; simp [runSchedule]
  | cons x rest ih =>
      intro c₁ c₂
      cases x
      · cases c₂ with
        | nil => simpa [runSchedule, List.count_cons] using ih c₁ []
        | cons b t =>
            have h := ih c₁ t
            simp [runSchedule, List.count_cons, h.1, h.2]
      · cases c₁ with
        | nil => simpa [runSchedule, List.count_cons] using ih [] c₂
        | cons b t =>
            have h := ih t c₂
            simp [runSchedule, List.count_cons, h.1, h.2]

/-- Claim C5: iterating a Board Group yields its boards sorted strictly
ascending by serial_number, and two iterators obtained from the same
group are independent: under any interleaving schedule each cursor yields
exactly the prefix of the sorted board list corresponding to how often it
was advanced, unaffected by the other cursor. -/
theorem iteration_spec (g : BoardGroup) (h : WF g) (sched : List Bool) :
    List.Chain' (fun a b : MBoard => a.serial < b.serial) (list_boards g) ∧
    (runSchedule sched (list_boards g) (list_boards g)).1 =
      (list_boards g).take (sched.count true) ∧
    (runSchedule sched (list_boards g) (list_boards g)).2 =
      (list_boards g).take (sched.count false) := by
  refine ⟨?_, (runSchedule_take sched _ _).1, (runSchedule_take sched _ _).2⟩
  have hs : List.Sorted serialLE (list_boards g) :=
    List.sorted_insertionSort serialLE _
  have hperm : (list_boards g).Perm (g.boards.map Prod.snd) :=
    List.perm_insertionSort serialLE _
  have hmapeq : (g.boards.map Prod.snd).map MBoard.serial =
      g.boards.map Prod.fst := by
    rw [List.map_map]
    exact List.map_congr_left (fun p hp => h.1 p hp)
  have hnodup : ((list_boards g).map MBoard.serial).Nodup :=
    ((hperm.map MBoard.serial).nodup_iff).mpr (hmapeq ▸ h.2)
  have hne : (list_boards g).Pairwise (fun a b => a.serial ≠ b.serial) :=
    List.pairwise_map.mp hnodup
  have hlt : (list_boards g).Pairwise (fun a b => a.serial < b.serial) :=
    (List.Pairwise.and hs hne).imp (fun hab => lt_of_le_of_ne hab.1 hab.2)
  exact hlt.chain'

/-- Witness for C5: a two-board group whose map is stored in reverse
serial order, iterated by two interleaved cursors advanced 3 and 1
times. -/
theorem iteration_spec_witness :
    List.Chain' (fun a b : MBoard => a.serial < b.serial)
      (list_boards ⟨2, [("TESTSERIAL2", ⟨"TESTSERIAL2", 1⟩),
        ("TESTSERIAL1", ⟨"TESTSERIAL1", 0⟩)]⟩) ∧
    (runSchedule [true, true, false, true]
        (list_boards ⟨2, [("TESTSERIAL2", ⟨"TESTSERIAL2", 1⟩),
          ("TESTSERIAL1", ⟨"TESTSERIAL1", 0⟩)]⟩)
        (list_boards ⟨2, [("TESTSERIAL2", ⟨"TESTSERIAL2", 1⟩),
          ("TESTSERIAL1", ⟨"TESTSERIAL1", 0⟩)]⟩)).1 =
      (list_boards ⟨2, [("TESTSERIAL2", ⟨"TESTSERIAL2", 1⟩),
        ("TESTSERIAL1", ⟨"TESTSERIAL1", 0⟩)]⟩).take
        (List.count true [true, true, false, true]) ∧
    (runSchedule [true, true, false, true]
        (list_boards ⟨2, [("TESTSERIAL2", ⟨"TESTSERIAL2", 1⟩),
          ("TESTSERIAL1", ⟨"TESTSERIAL1", 0⟩)]⟩)
        (list_boards ⟨2, [("TESTSERIAL2", ⟨"TESTSERIAL2", 1⟩),
          ("TESTSERIAL1", ⟨"TESTSERIAL1", 0⟩)]⟩)).2 =
      (list_boards ⟨2, [("TESTSERIAL2", ⟨"TESTSERIAL2", 1⟩),
        ("TESTSERIAL1", ⟨"TESTSERIAL1", 0⟩)]⟩).take
        (List.count false [true, true, false, true]) :=
  iteration_spec
    ⟨2, [("TESTSERIAL2", ⟨"TESTSERIAL2", 1⟩),
      ("TESTSERIAL1", ⟨"TESTSERIAL1", 0⟩)]⟩
    (by decide) [true, true, false, true]

theorem stdKeys_mem (i : Nat) :
    i ∈ stdKeys ↔ 2 ≤ i ∧ i < FIRST_ANALOGUE_PIN := by
  rw [stdKeys, List.mem_range'_1]
  norm_num [FIRST_ANALOGUE_PIN]

theorem keys_set_gpio_pin_mode (b : ArduinoBackend) (i : Nat)
    (m : GPIOPinMode) :
    (set_gpio_pin_mode b i m).2.digitalPins.map Prod.fst =
      b.digitalPins.map Prod.fst := by
  unfold set_gpio_pin_mode
  split
  · split
    · split
      · exact keys_setEntry _ _ _
      · rfl
    · rfl
  · split <;> rfl

theorem keys_write_gpio_pin_digital_state (b : ArduinoBackend) (i : Nat)
    (st : Bool) :
    (write_gpio_pin_digital_state b i st).2.digitalPins.map Prod.fst =
      b.digitalPins.map Prod.fst := by
  unfold write_gpio_pin_digital_state
  split
  · rfl
  · split
    · split
      · rfl
      · exact keys_setEntry _ _ _
    · rfl

/-- Claim C10: after construction the pin table has an entry for exactly
the digital pins 2..FIRST_ANALOGUE_PIN-1, each DIGITAL_INPUT with state
false; every operation preserves this key set; and under it the table
lookups inside the digital branches of the GPIO operations never raise a
KeyError for a digital pin identifier. -/
theorem pin_table_invariant (n : String) (b : ArduinoBackend) (i : Nat)
    (m : GPIOPinMode) (st : Bool) (od : Nat → Bool) :
    KeysEq (initBackend n) ∧
    (∀ j, 2 ≤ j → j < FIRST_ANALOGUE_PIN →
      lookupKey j (initBackend n).digitalPins =
        some ⟨GPIOPinMode.DIGITAL_INPUT, false⟩) ∧
    (KeysEq b →
      KeysEq (set_gpio_pin_mode b i m).2 ∧
      KeysEq (write_gpio_pin_digital_state b i st).2 ∧
      KeysEq (get_gpio_pin_mode b i).2 ∧
      KeysEq (get_gpio_pin_digital_state b i).2 ∧
      KeysEq (read_gpio_pin_digital_state od b i).2) ∧
    (KeysEq b → 2 ≤ i → i < FIRST_ANALOGUE_PIN →
      errKind (set_gpio_pin_mode b i m).1 ≠ some ErrKind.key ∧
      errKind (write_gpio_pin_digital_state b i st).1 ≠ some ErrKind.key ∧
      errKind (get_gpio_pin_mode b i).1 ≠ some ErrKind.key ∧
      errKind (get_gpio_pin_digital_state b i).1 ≠ some ErrKind.key ∧
      errKind (read_gpio_pin_digital_state od b i).1 ≠ some ErrKind.key) := by
  refine ⟨?_, ?_, ?_, ?_⟩
  · show _ = _
    rw [initBackend, stdKeys, List.map_map]
    exact (List.map_congr_left (fun a _ => rfl)).trans (List.map_id _)
  · intro j h2 h14
    rw [initBackend]
    rw [show (List.range' 2 (FIRST_ANALOGUE_PIN - 2)).map
        (fun i => (i, (⟨GPIOPinMode.DIGITAL_INPUT, false⟩ : DigitalPinData))) =
        (List.range' 2 (FIRST_ANALOGUE_PIN - 2)).map
        (fun i => (i, (fun _ : Nat =>
          (⟨GPIOPinMode.DIGITAL_INPUT, false⟩ : DigitalPinData)) i)) from rfl,
      lookupKey_map_self]
    rw [if_pos (show j ∈ List.range' 2 (FIRST_ANALOGUE_PIN - 2) from
      (stdKeys_mem j).mpr ⟨h2, h14⟩)]
  · intro hb
    refine ⟨?_, ?_, ?_, ?_, ?_⟩
    · show _ = _
      rw [keys_set_gpio_pin_mode]
      exact hb
    · show _ = _
      rw [keys_write_gpio_pin_digital_state]
      exact hb
    · show _ = _
      rw [get_gpio_pin_mode_state]
      exact hb
    · show _ = _
      rw [get_gpio_pin_digital_state_state]
      exact hb
    · show _ = _
      rw [read_gpio_pin_digital_state_state]
      exact hb
  · intro hb h2 h14
    have hsome : (lookupKey i b.digitalPins).isSome := by
      rw [lookupKey_isSome_iff]
      rw [KeysEq] at hb
      rw [hb]
      exact (stdKeys_mem i).mpr ⟨h2, h14⟩
    obtain ⟨pd, hpd⟩ := Option.isSome_iff_exists.mp hsome
    refine ⟨?_, ?_, ?_, ?_, ?_⟩
    · by_cases hm : m ∈ digital_pin_modes
      · simp [set_gpio_pin_mode, h14, hm, hpd, errKind]
      · simp [set_gpio_pin_mode, h14, hm, hpd, errKind, PyError.kind]
    · by_cases hdm : pd.mode = GPIOPinMode.DIGITAL_OUTPUT
      · simp [write_gpio_pin_digital_state, not_le.mpr h14, hpd, hdm, errKind]
      · simp [write_gpio_pin_digital_state, not_le.mpr h14, hpd, hdm, errKind,
          PyError.kind]
    · simp [get_gpio_pin_mode, h14, hpd, errKind]
    · by_cases hdm : pd.mode = GPIOPinMode.DIGITAL_OUTPUT
      · simp [get_gpio_pin_digital_state, not_le.mpr h14, hpd, hdm, errKind]
      · simp [get_gpio_pin_digital_state, not_le.mpr h14, hpd, hdm, errKind,
          PyError.kind]
    · by_cases hio : pd.mode = GPIOPinMode.DIGITAL_INPUT ∨
          pd.mode = GPIOPinMode.DIGITAL_INPUT_PULLUP
      · simp [read_gpio_pin_digital_state, not_le.mpr h14, hpd, hio, errKind]
      · simp [read_gpio_pin_digital_state, not_le.mpr h14, hpd, hio, errKind,
          PyError.kind]

/-- Witness for C10: on the freshly constructed backend, pin 5 (a digital
pin) is looked at by every operation without a KeyError, and a mode-set on
it keeps the key set intact. -/
theorem pin_table_invariant_witness :
    KeysEq (set_gpio_pin_mode (initBackend "Arduino Uno") 5
      GPIOPinMode.DIGITAL_OUTPUT).2 ∧
    errKind (set_gpio_pin_mode (initBackend "Arduino Uno") 5
      GPIOPinMode.DIGITAL_OUTPUT).1 ≠ some ErrKind.key ∧
    errKind (write_gpio_pin_digital_state (initBackend "Arduino Uno") 5
      true).1 ≠ some ErrKind.key ∧
    lookupKey 5 (initBackend "Arduino Uno").digitalPins =
      some ⟨GPIOPinMode.DIGITAL_INPUT, false⟩ :=
  ⟨((pin_table_invariant "Arduino Uno" (initBackend "Arduino Uno") 5
      GPIOPinMode.DIGITAL_OUTPUT true (fun _ => false)).2.2.1 (by decide)).1,
   ((pin_table_invariant "Arduino Uno" (initBackend "Arduino Uno") 5
      GPIOPinMode.DIGITAL_OUTPUT true (fun _ => false)).2.2.2 (by decide)
      (by decide) (by decide)).1,
   ((pin_table_invariant "Arduino Uno" (initBackend "Arduino Uno") 5
      GPIOPinMode.DIGITAL_OUTPUT true (fun _ => false)).2.2.2 (by decide)
      (by decide) (by decide)).2.1,
   (pin_table_invariant "Arduino Uno" (initBackend "Arduino Uno") 5
      GPIOPinMode.DIGITAL_OUTPUT true (fun _ => false)).2.1 5 (by decide)
      (by decide)⟩

end J5
